import Mathlib

/-!
Shallow embedding of the camera capture-and-distribution service
(`server/camera/camera_v1.py`).

The per-device mutable state (`camera_status[i]`, `latest_frames[i]`, the
`CameraThread` attributes) is modelled as a record `DeviceState`; the capture
thread's `initialize_camera`, `reconnect_camera`, the body of `run`, the
reconnect HTTP endpoint and the shutdown handler are modelled as pure state
transformers.  Outcomes decided by the hardware or by OpenCV (whether
`cv2.VideoCapture` opens and test-captures, whether `cap.read` yields a frame,
whether `cv2.imencode` succeeds and which bytes it produces) are inputs
supplied by the environment.  The stream generator `generate_frames` is
modelled one loop iteration at a time, with the wall clock as an explicit
rational input.
-/

namespace CameraV1

/-- `max_reconnect_attempts` of `CameraThread.__init__` (line 40). -/
def max_reconnect_attempts : Nat := 10

/-- `reconnect_delay` (seconds) of `CameraThread.__init__` (line 41). -/
def reconnect_delay : Nat := 2

/-- `max_consecutive_errors`, local constant of `CameraThread.run` (line 107). -/
def max_consecutive_errors : Nat := 5

/-- One entry of `camera_status`: `{"connected": ..., "error_count": ...}`. -/
structure CameraStatus where
  connected : Bool
  error_count : Nat
deriving DecidableEq

/-- Where the `run` method of a `CameraThread` stands: not yet entered, inside
the `while self.running` loop, or returned (either the early `return` on a
failed startup initialization, or normal exit through the cleanup block). -/
inductive Phase
  | notStarted
  | capturing
  | stopped
deriving DecidableEq

/-- The `CameraThread` attributes relevant to control flow: the `running`
stop-flag, the lifetime `reconnect_attempts` counter, and the local
`consecutive_errors` counter of `run`, plus the phase of `run`. -/
structure CameraThreadState where
  running : Bool
  reconnect_attempts : Nat
  phase : Phase
  consecutive_errors : Nat
deriving DecidableEq

/-- The whole per-device state: the thread, the device's `camera_status`
entry, and its `latest_frames` slot (`none` = never written). -/
structure DeviceState where
  thread : CameraThreadState
  status : CameraStatus
  frame : Option (List Nat)
deriving DecidableEq

/-- State at process start: thread constructed with `running = True` and
`reconnect_attempts = 0`, `camera_status` entry `{connected: False,
error_count: 0}`, empty `latest_frames` slot. -/
def init_device : DeviceState :=
  { thread := { running := true, reconnect_attempts := 0,
                phase := Phase.notStarted, consecutive_errors := 0 }
    status := { connected := false, error_count := 0 }
    frame := none }

/-- `CameraThread.initialize_camera` (lines 43-83).  `ok` is the
environment's verdict on whether the device opened and one of the five test
captures succeeded.  On success the status entry becomes
`{connected: True, error_count: 0}` and `reconnect_attempts` is reset;
on failure nothing changes and `False` is returned. -/
def init_camera (d : DeviceState) (ok : Bool) : DeviceState × Bool :=
  if ok then
    ({ d with
        status := { connected := true, error_count := 0 }
        thread := { d.thread with reconnect_attempts := 0 } }, true)
  else (d, false)

/-- The `self.reconnect_attempts += 1` of `reconnect_camera` (line 91). -/
def bump_attempts (d : DeviceState) : DeviceState :=
  { d with thread := { d.thread with
      reconnect_attempts := d.thread.reconnect_attempts + 1 } }

/-- `CameraThread.reconnect_camera` (lines 85-95).  Returns the new state,
the boolean result, and the seconds slept (`time.sleep(self.reconnect_delay)`
runs only when the attempt cap has not been reached). -/
def reconnect_camera (d : DeviceState) (ok : Bool) :
    DeviceState × Bool × Nat :=
  if d.thread.reconnect_attempts ≥ max_reconnect_attempts then (d, false, 0)
  else
    ((init_camera (bump_attempts d) ok).1,
     (init_camera (bump_attempts d) ok).2, reconnect_delay)

/-- The cleanup block after the `while` loop of `run` (lines 156-161):
release the handle, set `connected = False`, thread is finished. -/
def cleanup (d : DeviceState) : DeviceState :=
  { d with
      status := { d.status with connected := false }
      thread := { d.thread with phase := Phase.stopped } }

/-- Environment inputs for one iteration of the `while self.running` loop of
`CameraThread.run`: the result of `self.cap.read()` (`none` = failed read, the
payload abstracts the raw frame), the result of `cv2.imencode` on this frame
(`none` = encode failure, `some b` = the encoded JPEG bytes), and the verdict
of `initialize_camera` should a reconnect be attempted this iteration. -/
structure IterEvent where
  read : Option Nat
  encode : Option (List Nat)
  initOk : Bool
deriving DecidableEq

/-- Lines 120-123 of `run`: the consecutive-error counter has just been
bumped to the threshold, so under the status lock the device is marked
disconnected and the global `error_count` is incremented. -/
def mark_disconnected (d : DeviceState) : DeviceState :=
  { d with
      status := { connected := false, error_count := d.status.error_count + 1 }
      thread := { d.thread with
        consecutive_errors := d.thread.consecutive_errors + 1 } }

/-- Lines 125-128 of `run`: the single `reconnect_camera()` call after the
threshold; on success `consecutive_errors = 0` and the loop continues, on
failure `break` leads into the cleanup block. -/
def on_reconnect (d : DeviceState) (ok : Bool) : DeviceState :=
  if (reconnect_camera d ok).2.1 then
    { (reconnect_camera d ok).1 with
        thread := { (reconnect_camera d ok).1.thread with
          consecutive_errors := 0 } }
  else cleanup (reconnect_camera d ok).1

/-- Lines 116-130 of `run`: a failed `cap.read()`.  The consecutive-error
counter is bumped; at the threshold ( `max_consecutive_errors` ) the device
is marked disconnected and a single reconnect decides between resuming and
`break`. -/
def on_fail_read (d : DeviceState) (initOk : Bool) : DeviceState :=
  if d.thread.consecutive_errors + 1 ≥ max_consecutive_errors then
    on_reconnect (mark_disconnected d) initOk
  else { d with thread := { d.thread with
          consecutive_errors := d.thread.consecutive_errors + 1 } }

/-- Lines 132-145 of `run`: a successful `cap.read()`.  The counter resets;
the (resized) frame is JPEG-encoded and the slot is overwritten only when
the encode succeeds. -/
def on_good_read (d : DeviceState) (encode : Option (List Nat)) : DeviceState :=
  match encode with
  | some b =>
    { d with
        thread := { d.thread with consecutive_errors := 0 }
        frame := some b }
  | none => { d with thread := { d.thread with consecutive_errors := 0 } }

/-- One iteration of the capture loop of `CameraThread.run` (lines 109-154),
including the loop-condition check: if `running` is already false the loop
exits into the cleanup block. -/
def run_iter (d : DeviceState) (e : IterEvent) : DeviceState :=
  if d.thread.phase ≠ Phase.capturing then d
  else if d.thread.running = false then cleanup d
  else
    match e.read with
    | none => on_fail_read d e.initOk
    | some _ => on_good_read d e.encode

/-- The start of `CameraThread.run` (lines 97-107): the initial
`initialize_camera`; on failure `run` returns at once (line 103), skipping
the cleanup block, on success the loop is entered with
`consecutive_errors = 0`. -/
def run_start (d : DeviceState) (ok : Bool) : DeviceState :=
  if d.thread.phase ≠ Phase.notStarted then d
  else if (init_camera d ok).2 then
    { (init_camera d ok).1 with
        thread := { (init_camera d ok).1.thread with
          phase := Phase.capturing, consecutive_errors := 0 } }
  else
    { (init_camera d ok).1 with
        thread := { (init_camera d ok).1.thread with phase := Phase.stopped } }

/-- Effect of `POST /camera/{id}/reconnect` (lines 269-280) on the device
state: the endpoint calls `thread.reconnect_camera()` and reports its
boolean result. -/
def post_reconnect (d : DeviceState) (ok : Bool) : DeviceState × Bool :=
  ((reconnect_camera d ok).1, (reconnect_camera d ok).2.1)

/-- Response body `{"camera_id": ..., "reconnect_success": ...}` of the
reconnect endpoint. -/
structure ReconnectResponse where
  camera_id : Nat
  reconnect_success : Bool
deriving DecidableEq

/-- The reconnect endpoint itself, with its 404 guard (`camera_id not in
[0, 1]`); `d` is the state of the addressed device. -/
def reconnect_endpoint (cid : Nat) (d : DeviceState) (ok : Bool) :
    Except Nat (DeviceState × ReconnectResponse) :=
  if cid = 0 ∨ cid = 1 then
    let r := post_reconnect d ok
    Except.ok (r.1, { camera_id := cid, reconnect_success := r.2 })
  else Except.error 404

/-- An operation of the service touching one device's state: the worker
thread starting (`run`'s initial initialization), one capture-loop
iteration, the shutdown handler clearing the `running` flag, or the
reconnect endpoint firing. -/
inductive Op
  | start (ok : Bool)
  | iter (e : IterEvent)
  | setStop
  | postReconnect (ok : Bool)
deriving DecidableEq

/-- One operation applied to the device state. -/
def step (d : DeviceState) (op : Op) : DeviceState :=
  match op with
  | Op.start ok => run_start d ok
  | Op.iter e => run_iter d e
  | Op.setStop => { d with thread := { d.thread with running := false } }
  | Op.postReconnect ok => (post_reconnect d ok).1

/-- A sequence of operations applied in order. -/
def run_trace (d : DeviceState) (t : List Op) : DeviceState :=
  t.foldl step d

/-- One entry of the `CAMERAS` configuration list (lines 18-21). -/
structure CameraConfig where
  id : Nat
  fps : Nat
  width : Nat
  height : Nat
  name : String
deriving DecidableEq

/-- The `CAMERAS` list: two 1280x720 devices at 30 fps. -/
def CAMERAS : List CameraConfig :=
  [ { id := 0, fps := 30, width := 1280, height := 720, name := "Kamera Utama" },
    { id := 1, fps := 30, width := 1280, height := 720, name := "Kamera Sekunder" } ]

/-- The image built by `generate_placeholder_image` (lines 201-211): a
1280x720 black canvas carrying the overlay text
`"Camera {camera_id} - Disconnected"`, JPEG-encoded. -/
structure PlaceholderImage where
  width : Nat
  height : Nat
  text : String
deriving DecidableEq

/-- `generate_placeholder_image(camera_id)`. -/
def generate_placeholder_image (cid : Nat) : PlaceholderImage :=
  { width := 1280, height := 720,
    text := "Camera " ++ toString cid ++ " - Disconnected" }

/-- What one iteration of the `generate_frames` loop emits to the
transport. -/
inductive StreamOut
  | placeholder (img : PlaceholderImage)
  | frame (b : List Nat)
  | nothing
  | terminated
deriving DecidableEq

/-- One iteration of the `while True` loop of `generate_frames`
(lines 168-199).  Inputs: the device's configured fps, the `connected` flag
read under the status lock, the `latest_frames` slot read under the frame
lock, the current wall-clock time `now` and the current `last_frame_time`.
Output: what is yielded, the new `last_frame_time`, and the seconds slept
this iteration (`time.sleep(1)` on the placeholder branch, `time.sleep(1 /
fps)` otherwise; a `break` sleeps nothing). -/
def stream_tick (cid : Nat) (fps : Nat) (connected : Bool)
    (slot : Option (List Nat)) (now last : ℚ) : StreamOut × ℚ × ℚ :=
  if connected = false then
    (StreamOut.placeholder (generate_placeholder_image cid), last, 1)
  else
    match slot with
    | some b => (StreamOut.frame b, now, 1 / (fps : ℚ))
    | none =>
      if now - last > 5 then (StreamOut.terminated, last, 0)
      else (StreamOut.nothing, last, 1 / (fps : ℚ))

/-- Inputs to one stream iteration as seen over a whole connection: the
status and slot observed, and the time of the observation. -/
structure StreamEvent where
  connected : Bool
  slot : Option (List Nat)
  now : ℚ

/-- The generator run over a list of per-iteration observations, threading
`last_frame_time` and stopping at the `break`.  Returns the emitted
outputs. -/
def stream_run (cid : Nat) (fps : Nat) (last : ℚ) :
    List StreamEvent → List StreamOut
  | [] => []
  | ev :: rest =>
    let r := stream_tick cid fps ev.connected ev.slot ev.now last
    match r.1 with
    | StreamOut.terminated => [StreamOut.terminated]
    | out => out :: stream_run cid fps r.2.1 rest

/-- Actions the shutdown handler could take on the workers. -/
inductive ShutdownAction
  | setStopFlag (i : Nat)
  | join (i : Nat) (timeout : Option Nat)
deriving DecidableEq

/-- Whether an action is a join/wait on a worker. -/
def ShutdownAction.isJoin : ShutdownAction → Bool
  | ShutdownAction.join _ _ => true
  | _ => false

/-- The actions `shutdown_event` (lines 230-236) performs, given the
`camera_threads` list: for each non-`None` entry, set `thread.running =
False` — and nothing else. -/
def shutdown_actions (threads : List (Option CameraThreadState)) :
    List ShutdownAction :=
  (threads.enum).filterMap fun p =>
    match p.2 with
    | some _ => some (ShutdownAction.setStopFlag p.1)
    | none => none

/-- The state effect of `shutdown_event`: every existing worker's `running`
flag is cleared. -/
def shutdown_state (threads : List (Option CameraThreadState)) :
    List (Option CameraThreadState) :=
  threads.map (Option.map fun t => { t with running := false })

/-- The two per-device lock arrays. -/
inductive LockKind
  | statusLock
  | frameLock
deriving DecidableEq

/-- A `with <lock>:` block of the source, recorded with whether its body
contains a `time.sleep`, a `yield` to the transport (network emission), or a
`cap.read`/capture call. -/
structure CriticalSection where
  lock : LockKind
  sleeps : Bool
  emits : Bool
  captures : Bool
deriving DecidableEq

/-- `initialize_camera`, lines 70-72: status write only. -/
def cs_init_status : CriticalSection :=
  { lock := LockKind.statusLock, sleeps := false, emits := false, captures := false }

/-- `run`, lines 121-123 (error threshold reached): status write only. -/
def cs_run_threshold : CriticalSection :=
  { lock := LockKind.statusLock, sleeps := false, emits := false, captures := false }

/-- `run`, lines 144-145: frame-slot write only. -/
def cs_run_frame_write : CriticalSection :=
  { lock := LockKind.frameLock, sleeps := false, emits := false, captures := false }

/-- `run` cleanup, lines 159-160: status write only. -/
def cs_run_cleanup : CriticalSection :=
  { lock := LockKind.statusLock, sleeps := false, emits := false, captures := false }

/-- `generate_frames`, lines 171-178: the disconnected branch synthesizes the
placeholder, `yield`s it and runs `time.sleep(1)` with the status lock still
held. -/
def cs_stream_status : CriticalSection :=
  { lock := LockKind.statusLock, sleeps := true, emits := true, captures := false }

/-- `generate_frames`, lines 181-182: frame-slot read only. -/
def cs_stream_frame_read : CriticalSection :=
  { lock := LockKind.frameLock, sleeps := false, emits := false, captures := false }

/-- Status endpoint, lines 261-267: status read only (the `return` closes the
`with` block before the response is serialized). -/
def cs_status_endpoint : CriticalSection :=
  { lock := LockKind.statusLock, sleeps := false, emits := false, captures := false }

/-- Root endpoint, lines 287-292: status read only. -/
def cs_root_endpoint : CriticalSection :=
  { lock := LockKind.statusLock, sleeps := false, emits := false, captures := false }

/-- Every lock acquisition in the source, in order of appearance. -/
def all_critical_sections : List CriticalSection :=
  [ cs_init_status, cs_run_threshold, cs_run_frame_write, cs_run_cleanup,
    cs_stream_status, cs_stream_frame_read, cs_status_endpoint,
    cs_root_endpoint ]

/-! Helper lemmas shared by several claims. -/

lemma run_trace_nil (d : DeviceState) : run_trace d [] = d := rfl

lemma run_trace_cons (d : DeviceState) (op : Op) (t : List Op) :
    run_trace d (op :: t) = run_trace (step d op) t := rfl

lemma step_start (d : DeviceState) (ok : Bool) :
    step d (Op.start ok) = run_start d ok := rfl

lemma step_iter (d : DeviceState) (e : IterEvent) :
    step d (Op.iter e) = run_iter d e := rfl

lemma step_setStop (d : DeviceState) :
    step d Op.setStop = { d with thread := { d.thread with running := false } } := rfl

lemma step_postReconnect (d : DeviceState) (ok : Bool) :
    step d (Op.postReconnect ok) = (post_reconnect d ok).1 := rfl

lemma run_iter_not_capturing {d : DeviceState} (e : IterEvent)
    (h : d.thread.phase ≠ Phase.capturing) : run_iter d e = d := by
  unfold run_iter; simp [h]

lemma run_iter_stop_flag {d : DeviceState} (e : IterEvent)
    (h1 : d.thread.phase = Phase.capturing) (h2 : d.thread.running = false) :
    run_iter d e = cleanup d := by
  unfold run_iter; simp [h1, h2]

lemma run_iter_fail {d : DeviceState} {e : IterEvent}
    (h1 : d.thread.phase = Phase.capturing) (h2 : d.thread.running = true)
    (h3 : e.read = none) : run_iter d e = on_fail_read d e.initOk := by
  unfold run_iter; simp [h1, h2, h3]

lemma run_iter_good {d : DeviceState} {e : IterEvent} {v : Nat}
    (h1 : d.thread.phase = Phase.capturing) (h2 : d.thread.running = true)
    (h3 : e.read = some v) : run_iter d e = on_good_read d e.encode := by
  unfold run_iter; simp [h1, h2, h3]

lemma init_camera_frame (d : DeviceState) (ok : Bool) :
    (init_camera d ok).1.frame = d.frame := by
  unfold init_camera; split <;> rfl

lemma reconnect_camera_frame (d : DeviceState) (ok : Bool) :
    (reconnect_camera d ok).1.frame = d.frame := by
  unfold reconnect_camera; split
  · rfl
  · exact init_camera_frame _ ok

lemma cleanup_frame (d : DeviceState) : (cleanup d).frame = d.frame := rfl

lemma on_reconnect_frame (d : DeviceState) (ok : Bool) :
    (on_reconnect d ok).frame = d.frame := by
  unfold on_reconnect; split
  · exact reconnect_camera_frame d ok
  · rw [cleanup_frame]; exact reconnect_camera_frame d ok

/-- The only write to the frame slot in a whole `step` is the successful
JPEG-encode branch of the capture loop. -/
lemma step_frame (d : DeviceState) (op : Op) :
    (step d op).frame = d.frame ∨
    ∃ e b, op = Op.iter e ∧ e.encode = some b ∧ e.read.isSome = true ∧
      (step d op).frame = some b := by
  cases op with
  | start ok =>
    left
    rw [step_start]
    unfold run_start
    split
    · rfl
    · split
      · exact init_camera_frame d ok
      · exact init_camera_frame d ok
  | iter e =>
    rw [step_iter]
    by_cases h1 : d.thread.phase = Phase.capturing
    · by_cases h2 : d.thread.running = true
      · cases hr : e.read with
        | none =>
          left
          rw [run_iter_fail h1 h2 hr]
          unfold on_fail_read
          split
          · exact on_reconnect_frame _ _
          · rfl
        | some v =>
          rw [run_iter_good h1 h2 hr]
          cases he : e.encode with
          | none => left; unfold on_good_read; rfl
          | some b =>
            right
            refine ⟨e, b, rfl, he, by rw [hr]; rfl, ?_⟩
            unfold on_good_read; rfl
      · rw [run_iter_stop_flag e h1 (by simpa using h2)]
        exact Or.inl (cleanup_frame d)
    · rw [run_iter_not_capturing e h1]
      exact Or.inl rfl
  | setStop => exact Or.inl rfl
  | postReconnect ok =>
    left
    rw [step_postReconnect]
    unfold post_reconnect
    exact reconnect_camera_frame d ok

lemma init_camera_phase (d : DeviceState) (ok : Bool) :
    (init_camera d ok).1.thread.phase = d.thread.phase := by
  unfold init_camera; split <;> rfl

lemma reconnect_camera_phase (d : DeviceState) (ok : Bool) :
    (reconnect_camera d ok).1.thread.phase = d.thread.phase := by
  unfold reconnect_camera; split
  · rfl
  · exact init_camera_phase _ ok

lemma init_camera_connected (d : DeviceState) (ok : Bool) :
    (init_camera d ok).1.status.connected = d.status.connected ∨
    (init_camera d ok).1.status.connected = true := by
  unfold init_camera; split
  · exact Or.inr rfl
  · exact Or.inl rfl

lemma reconnect_camera_connected (d : DeviceState) (ok : Bool) :
    (reconnect_camera d ok).1.status.connected = d.status.connected ∨
    (reconnect_camera d ok).1.status.connected = true := by
  unfold reconnect_camera; split
  · exact Or.inl rfl
  · exact init_camera_connected _ ok

lemma init_camera_error (d : DeviceState) (ok : Bool) :
    (init_camera d ok).1.status.error_count = d.status.error_count ∨
    (init_camera d ok).1.status.error_count = 0 := by
  unfold init_camera; split
  · exact Or.inr rfl
  · exact Or.inl rfl

lemma reconnect_camera_error (d : DeviceState) (ok : Bool) :
    (reconnect_camera d ok).1.status.error_count = d.status.error_count ∨
    (reconnect_camera d ok).1.status.error_count = 0 := by
  unfold reconnect_camera; split
  · exact Or.inl rfl
  · exact init_camera_error _ ok

lemma on_good_read_connected (d : DeviceState) (enc : Option (List Nat)) :
    (on_good_read d enc).status.connected = d.status.connected := by
  unfold on_good_read; cases enc <;> rfl

lemma on_good_read_error (d : DeviceState) (enc : Option (List Nat)) :
    (on_good_read d enc).status.error_count = d.status.error_count := by
  unfold on_good_read; cases enc <;> rfl

lemma run_start_connected (d : DeviceState) (ok : Bool) :
    (run_start d ok).status.connected = d.status.connected ∨
    (run_start d ok).status.connected = true := by
  unfold run_start; split
  · exact Or.inl rfl
  · split
    · exact init_camera_connected d ok
    · exact init_camera_connected d ok

lemma run_start_error (d : DeviceState) (ok : Bool) :
    (run_start d ok).status.error_count = d.status.error_count ∨
    (run_start d ok).status.error_count = 0 := by
  unfold run_start; split
  · exact Or.inl rfl
  · split
    · exact init_camera_error d ok
    · exact init_camera_error d ok

lemma on_reconnect_error (d : DeviceState) (ok : Bool) :
    (on_reconnect d ok).status.error_count = d.status.error_count ∨
    (on_reconnect d ok).status.error_count = 0 := by
  unfold on_reconnect; split
  · exact reconnect_camera_error d ok
  · show (reconnect_camera d ok).1.status.error_count = _ ∨ _
    exact reconnect_camera_error d ok

lemma run_start_not_notStarted {d : DeviceState} (ok : Bool)
    (h : d.thread.phase ≠ Phase.notStarted) : run_start d ok = d := by
  unfold run_start; simp [h]

/-- Once the `run` method has returned, no operation revives it: the phase
stays `stopped`, the frame slot is frozen, and a `connected = true` status
(as left by a successful endpoint-driven reconnect) can only stay `true`. -/
lemma step_stopped {d : DeviceState} (op : Op)
    (h : d.thread.phase = Phase.stopped) (hc : d.status.connected = true) :
    (step d op).thread.phase = Phase.stopped ∧
    (step d op).frame = d.frame ∧
    (step d op).status.connected = true := by
  cases op with
  | start ok =>
    rw [step_start, run_start_not_notStarted ok (by rw [h]; simp)]
    exact ⟨h, rfl, hc⟩
  | iter e =>
    rw [step_iter, run_iter_not_capturing e (by rw [h]; simp)]
    exact ⟨h, rfl, hc⟩
  | setStop => exact ⟨h, rfl, hc⟩
  | postReconnect ok =>
    rw [step_postReconnect]
    refine ⟨(reconnect_camera_phase d ok).trans h, reconnect_camera_frame d ok, ?_⟩
    rcases reconnect_camera_connected d ok with h2 | h2
    · exact h2.trans hc
    · exact h2

/-- Trace version of `step_stopped`. -/
lemma run_trace_stopped (t : List Op) (d : DeviceState)
    (h : d.thread.phase = Phase.stopped) (hc : d.status.connected = true) :
    (run_trace d t).thread.phase = Phase.stopped ∧
    (run_trace d t).frame = d.frame ∧
    (run_trace d t).status.connected = true := by
  induction t generalizing d with
  | nil => exact ⟨h, rfl, hc⟩
  | cons op rest ih =>
    rw [run_trace_cons]
    obtain ⟨h1, h2, h3⟩ := step_stopped op h hc
    obtain ⟨g1, g2, g3⟩ := ih (step d op) h1 h3
    exact ⟨g1, g2.trans h2, g3⟩

/-- Along any trace, the frame slot either keeps its starting value, or holds
the bytes of some successful encode event of the trace. -/
lemma run_trace_frame (t : List Op) (d : DeviceState) :
    (run_trace d t).frame = d.frame ∨
    ∃ e b, Op.iter e ∈ t ∧ e.encode = some b ∧
      (run_trace d t).frame = some b := by
  induction t generalizing d with
  | nil => exact Or.inl rfl
  | cons op rest ih =>
    rw [run_trace_cons]
    rcases ih (step d op) with h | ⟨e, b, hmem, henc, hval⟩
    · rcases step_frame d op with h2 | ⟨e, b, hop, henc, _, hval⟩
      · exact Or.inl (h.trans h2)
      · exact Or.inr ⟨e, b, by simp [hop], henc, h.trans hval⟩
    · exact Or.inr ⟨e, b, List.mem_cons_of_mem _ hmem, henc, hval⟩

lemma mark_disconnected_attempts (d : DeviceState) :
    (mark_disconnected d).thread.reconnect_attempts =
      d.thread.reconnect_attempts := rfl

lemma reconnect_camera_capped {d : DeviceState} (ok : Bool)
    (h : max_reconnect_attempts ≤ d.thread.reconnect_attempts) :
    reconnect_camera d ok = (d, false, 0) := by
  unfold reconnect_camera; rw [if_pos h]

lemma reconnect_camera_ok {d : DeviceState}
    (h : d.thread.reconnect_attempts < max_reconnect_attempts) :
    reconnect_camera d true =
      ({ d with
          status := { connected := true, error_count := 0 }
          thread := { d.thread with reconnect_attempts := 0 } },
       true, reconnect_delay) := by
  unfold reconnect_camera
  rw [if_neg (by omega)]
  simp [init_camera, bump_attempts]

lemma reconnect_camera_fail {d : DeviceState}
    (h : d.thread.reconnect_attempts < max_reconnect_attempts) :
    reconnect_camera d false = (bump_attempts d, false, reconnect_delay) := by
  unfold reconnect_camera
  rw [if_neg (by omega)]
  simp [init_camera]

lemma on_reconnect_ok {d : DeviceState}
    (h : d.thread.reconnect_attempts < max_reconnect_attempts) :
    on_reconnect d true =
      { d with
          status := { connected := true, error_count := 0 }
          thread := { d.thread with
            reconnect_attempts := 0, consecutive_errors := 0 } } := by
  unfold on_reconnect
  rw [reconnect_camera_ok h]
  rfl

lemma on_reconnect_fail {d : DeviceState}
    (h : d.thread.reconnect_attempts < max_reconnect_attempts) :
    on_reconnect d false = cleanup (bump_attempts d) := by
  unfold on_reconnect
  rw [reconnect_camera_fail h]
  rfl

lemma on_reconnect_capped {d : DeviceState} (ok : Bool)
    (h : max_reconnect_attempts ≤ d.thread.reconnect_attempts) :
    on_reconnect d ok = cleanup d := by
  unfold on_reconnect
  rw [reconnect_camera_capped ok h]
  rfl

lemma step_phase_stopped {d : DeviceState} (op : Op)
    (h : d.thread.phase = Phase.stopped) :
    (step d op).thread.phase = Phase.stopped := by
  cases op with
  | start ok =>
    rw [step_start, run_start_not_notStarted ok (by rw [h]; simp)]; exact h
  | iter e =>
    rw [step_iter, run_iter_not_capturing e (by rw [h]; simp)]; exact h
  | setStop => exact h
  | postReconnect ok =>
    rw [step_postReconnect]; exact (reconnect_camera_phase d ok).trans h

lemma run_trace_phase_stopped (t : List Op) (d : DeviceState)
    (h : d.thread.phase = Phase.stopped) :
    (run_trace d t).thread.phase = Phase.stopped := by
  induction t generalizing d with
  | nil => exact h
  | cons op rest ih => exact ih (step d op) (step_phase_stopped op h)

/-- JSON body of `GET /camera/{id}/status` (lines 255-267). -/
structure StatusResponse where
  camera_id : Nat
  connected : Bool
  error_count : Nat
  config : Option CameraConfig
deriving DecidableEq

/-- The status endpoint, with its 404 guard; `d` is the state of the
addressed device. -/
def status_endpoint (cid : Nat) (d : DeviceState) : Except Nat StatusResponse :=
  if cid = 0 ∨ cid = 1 then
    Except.ok
      { camera_id := cid, connected := d.status.connected,
        error_count := d.status.error_count, config := CAMERAS.get? cid }
  else Except.error 404

/-- A run of the service on one device: successful startup, one good
captured frame, then five consecutive failed reads whose single reconnect
attempt also fails, which terminates the worker. -/
def trace_terminal : List Op :=
  Op.start true :: Op.iter { read := some 0, encode := some [1], initOk := true } ::
    List.replicate 5 (Op.iter { read := none, encode := none, initOk := false })

/-- The device state after `trace_terminal`. -/
def dev_terminal : DeviceState := run_trace init_device trace_terminal

/-- The device state after a subsequent successful
`POST /camera/0/reconnect`. -/
def dev_restatus : DeviceState := (post_reconnect dev_terminal true).1

/-- Claim C10: in every capture-loop iteration the frame slot is overwritten
only when JPEG encoding succeeds; if encoding fails the slot retains its
previous contents, so the slot always holds either the empty sentinel or the
byte output of a successful JPEG encode. -/
theorem C10_frame_write :
    (∀ (d : DeviceState) (e : IterEvent), e.encode = none →
        (run_iter d e).frame = d.frame) ∧
    (∀ (d : DeviceState) (e : IterEvent),
        (run_iter d e).frame = d.frame ∨
        ∃ b, e.encode = some b ∧ (run_iter d e).frame = some b) ∧
    (∀ t : List Op,
        (run_trace init_device t).frame = none ∨
        ∃ e b, Op.iter e ∈ t ∧ e.encode = some b ∧
          (run_trace init_device t).frame = some b) := by
  refine ⟨?_, ?_, ?_⟩
  · intro d e he
    rcases step_frame d (Op.iter e) with h | ⟨e2, b, hop, henc, _, _⟩
    · rwa [step_iter] at h
    · cases Op.iter.inj hop
      rw [he] at henc; cases henc
  · intro d e
    rcases step_frame d (Op.iter e) with h | ⟨e2, b, hop, henc, _, hval⟩
    · exact Or.inl (by rwa [step_iter] at h)
    · cases Op.iter.inj hop
      rw [step_iter] at hval
      exact Or.inr ⟨b, henc, hval⟩
  · intro t
    rcases run_trace_frame t init_device with h | ⟨e, b, hmem, henc, hval⟩
    · exact Or.inl h
    · exact Or.inr ⟨e, b, hmem, henc, hval⟩

/-- Witness for C10: a concrete iteration whose encode fails leaves the slot
untouched. -/
theorem C10_frame_write_witness :
    (run_iter init_device { read := some 0, encode := none, initOk := false }).frame
      = none :=
  C10_frame_write.1 init_device { read := some 0, encode := none, initOk := false } rfl

/-- Claim C9: after the capture worker's run loop has exited (terminal
failure), a later `POST /camera/0/reconnect` can succeed, setting
`connected = true` with counters reset, even though the capture loop never
resumes — thereafter the status endpoint reports the device connected while
no operation ever writes a new frame into its slot. -/
theorem C9_zombie_reconnect :
    dev_terminal.thread.phase = Phase.stopped ∧
    reconnect_endpoint 0 dev_terminal true =
      Except.ok (dev_restatus, { camera_id := 0, reconnect_success := true }) ∧
    dev_restatus.status.connected = true ∧
    dev_restatus.status.error_count = 0 ∧
    dev_restatus.thread.reconnect_attempts = 0 ∧
    dev_restatus.frame = some [1] ∧
    status_endpoint 0 dev_restatus =
      Except.ok { camera_id := 0, connected := true, error_count := 0,
                  config := CAMERAS.get? 0 } ∧
    ∀ t : List Op,
      (run_trace dev_restatus t).frame = some [1] ∧
      (run_trace dev_restatus t).status.connected = true ∧
      (run_trace dev_restatus t).thread.phase = Phase.stopped := by
  refine ⟨by decide, rfl, by decide, by decide, by decide, by decide, rfl, ?_⟩
  intro t
  obtain ⟨h1, h2, h3⟩ := run_trace_stopped t dev_restatus (by decide) (by decide)
  exact ⟨h2.trans (by decide), h3, h1⟩

/-- Claim C1 counterexample: in `trace_terminal` the consecutive-error
threshold is reached once and a single failed `initialize_camera` attempt
(not ten) already puts the worker into `stopped`: `reconnect_attempts`
ends at `1`. -/
theorem C1_counterexample :
    dev_terminal.thread.phase = Phase.stopped ∧
    dev_terminal.thread.reconnect_attempts = 1 ∧
    dev_terminal.thread.reconnect_attempts < max_reconnect_attempts := by
  decide

/-- Claim C1 amended: on entering the reconnect path (error threshold
reached), the worker makes at most one `initialize_camera` attempt, preceded
by one 2-second backoff when the lifetime attempt counter is under 10: a
successful attempt returns it to capturing with counters cleared, a failed
attempt (or an already-exhausted counter, in which case nothing is attempted
and nothing is slept) sends it straight to `stopped`. -/
theorem C1_single_attempt (d : DeviceState) (e : IterEvent)
    (h1 : d.thread.phase = Phase.capturing) (h2 : d.thread.running = true)
    (h3 : e.read = none)
    (h4 : max_consecutive_errors ≤ d.thread.consecutive_errors + 1) :
    (d.thread.reconnect_attempts < max_reconnect_attempts →
      (reconnect_camera (mark_disconnected d) e.initOk).2.2 = reconnect_delay) ∧
    (d.thread.reconnect_attempts < max_reconnect_attempts → e.initOk = true →
      (run_iter d e).thread.phase = Phase.capturing ∧
      (run_iter d e).status.connected = true ∧
      (run_iter d e).status.error_count = 0 ∧
      (run_iter d e).thread.consecutive_errors = 0 ∧
      (run_iter d e).thread.reconnect_attempts = 0) ∧
    (d.thread.reconnect_attempts < max_reconnect_attempts → e.initOk = false →
      (run_iter d e).thread.phase = Phase.stopped ∧
      (run_iter d e).status.connected = false ∧
      (run_iter d e).thread.reconnect_attempts =
        d.thread.reconnect_attempts + 1) ∧
    (max_reconnect_attempts ≤ d.thread.reconnect_attempts →
      (run_iter d e).thread.phase = Phase.stopped ∧
      (run_iter d e).status.connected = false ∧
      (reconnect_camera (mark_disconnected d) e.initOk).2.2 = 0) := by
  rw [run_iter_fail h1 h2 h3]
  unfold on_fail_read
  rw [if_pos h4]
  have hma : (mark_disconnected d).thread.reconnect_attempts =
      d.thread.reconnect_attempts := rfl
  refine ⟨?_, ?_, ?_, ?_⟩
  · intro hlt
    rcases he : e.initOk with _ | _
    · rw [reconnect_camera_fail (by rw [hma]; omega)]
    · rw [reconnect_camera_ok (by rw [hma]; omega)]
  · intro hlt hok
    rw [hok, on_reconnect_ok (by rw [hma]; omega)]
    refine ⟨h1, rfl, rfl, rfl, rfl⟩
  · intro hlt hok
    rw [hok, on_reconnect_fail (by rw [hma]; omega)]
    exact ⟨rfl, rfl, rfl⟩
  · intro hge
    rw [on_reconnect_capped e.initOk (by rw [hma]; omega),
        reconnect_camera_capped e.initOk (by rw [hma]; omega)]
    exact ⟨rfl, rfl, rfl⟩

/-- Witness for C1: a device at the error threshold with a fresh attempt
counter. -/
theorem C1_single_attempt_witness :
    let d : DeviceState :=
      { thread := { running := true, reconnect_attempts := 0,
                    phase := Phase.capturing, consecutive_errors := 4 }
        status := { connected := true, error_count := 0 }
        frame := none }
    let e : IterEvent := { read := none, encode := none, initOk := true }
    (d.thread.reconnect_attempts < max_reconnect_attempts →
      (reconnect_camera (mark_disconnected d) e.initOk).2.2 = reconnect_delay) ∧
    (d.thread.reconnect_attempts < max_reconnect_attempts → e.initOk = true →
      (run_iter d e).thread.phase = Phase.capturing ∧
      (run_iter d e).status.connected = true ∧
      (run_iter d e).status.error_count = 0 ∧
      (run_iter d e).thread.consecutive_errors = 0 ∧
      (run_iter d e).thread.reconnect_attempts = 0) ∧
    (d.thread.reconnect_attempts < max_reconnect_attempts → e.initOk = false →
      (run_iter d e).thread.phase = Phase.stopped ∧
      (run_iter d e).status.connected = false ∧
      (run_iter d e).thread.reconnect_attempts =
        d.thread.reconnect_attempts + 1) ∧
    (max_reconnect_attempts ≤ d.thread.reconnect_attempts →
      (run_iter d e).thread.phase = Phase.stopped ∧
      (run_iter d e).status.connected = false ∧
      (reconnect_camera (mark_disconnected d) e.initOk).2.2 = 0) :=
  C1_single_attempt _ _ rfl rfl rfl (by decide)

/-- Claim C2 counterexample: from the terminal state, a successful
`POST /camera/0/reconnect` reports success and sets `connected = true`, yet
the worker remains `stopped` and a subsequent capture iteration is a no-op —
the explicit reconnect is not a path back to Capturing. -/
theorem C2_counterexample :
    (post_reconnect dev_terminal true).2 = true ∧
    (post_reconnect dev_terminal true).1.status.connected = true ∧
    (post_reconnect dev_terminal true).1.thread.phase = Phase.stopped ∧
    run_iter (post_reconnect dev_terminal true).1
        { read := some 0, encode := some [2], initOk := true } =
      (post_reconnect dev_terminal true).1 := by
  decide

/-- Claim C2 amended: after the worker's terminal failure the device state
changes through no capture-loop iteration (in particular `connected` is
whatever the cleanup left, with no further automatic attempts); the explicit
reconnect endpoint synchronously runs `reconnect_camera`, returns
`{camera_id, reconnect_success}`, and while the lifetime attempt counter is
under 10 a successful call sets `connected = true` — but the worker stays
`stopped` forever, so the endpoint is not a path back to Capturing. -/
theorem C2_stopped_worker (d : DeviceState)
    (h : d.thread.phase = Phase.stopped) :
    (∀ e : IterEvent, run_iter d e = d) ∧
    (∀ ok : Bool, reconnect_endpoint 0 d ok =
        Except.ok ((post_reconnect d ok).1,
          { camera_id := 0, reconnect_success := (post_reconnect d ok).2 })) ∧
    (d.thread.reconnect_attempts < max_reconnect_attempts →
      (post_reconnect d true).2 = true ∧
      (post_reconnect d true).1.status.connected = true ∧
      (post_reconnect d true).1.thread.phase = Phase.stopped) ∧
    (∀ t : List Op, (run_trace d t).thread.phase = Phase.stopped) := by
  refine ⟨?_, ?_, ?_, fun t => run_trace_phase_stopped t d h⟩
  · intro e
    exact run_iter_not_capturing e (by rw [h]; simp)
  · intro ok
    unfold reconnect_endpoint
    rw [if_pos (Or.inl rfl)]
  · intro hlt
    unfold post_reconnect
    rw [reconnect_camera_ok hlt]
    exact ⟨rfl, rfl, h⟩

/-- Witness for C2: the terminal state of `trace_terminal`. -/
theorem C2_stopped_worker_witness :
    run_iter dev_terminal { read := some 0, encode := some [3], initOk := true }
        = dev_terminal ∧
    (post_reconnect dev_terminal true).1.thread.phase = Phase.stopped := by
  have h := C2_stopped_worker dev_terminal (by decide)
  exact ⟨h.1 _, (h.2.2.1 (by decide)).2.2⟩

/-- Claim C3 counterexample: `error_count` is 1 after the terminal trace,
and the next operation — a successful explicit reconnect — lowers it to 0:
`error_count` is not monotonically non-decreasing across every operation. -/
theorem C3_counterexample :
    dev_terminal.status.error_count = 1 ∧
    (run_trace dev_terminal [Op.postReconnect true]).status.error_count = 0 := by
  decide

/-- Claim C3 amended: across any single operation, `error_count` is either
unchanged, incremented by one (error threshold reached), or reset to 0 by a
successful `initialize_camera` (startup, automatic reconnect, or the
reconnect endpoint). -/
theorem C3_error_count_step (d : DeviceState) (op : Op) :
    (step d op).status.error_count = d.status.error_count ∨
    (step d op).status.error_count = d.status.error_count + 1 ∨
    (step d op).status.error_count = 0 := by
  cases op with
  | start ok =>
    rw [step_start]
    rcases run_start_error d ok with h | h
    · exact Or.inl h
    · exact Or.inr (Or.inr h)
  | setStop => exact Or.inl rfl
  | postReconnect ok =>
    rw [step_postReconnect]
    rcases reconnect_camera_error d ok with h | h
    · exact Or.inl h
    · exact Or.inr (Or.inr h)
  | iter e =>
    rw [step_iter]
    by_cases h1 : d.thread.phase = Phase.capturing
    · by_cases h2 : d.thread.running = true
      · cases hr : e.read with
        | none =>
          rw [run_iter_fail h1 h2 hr]
          unfold on_fail_read
          split
          · rcases on_reconnect_error (mark_disconnected d) e.initOk with h | h
            · exact Or.inr (Or.inl h)
            · exact Or.inr (Or.inr h)
          · exact Or.inl rfl
        | some v =>
          rw [run_iter_good h1 h2 hr]
          exact Or.inl (on_good_read_error d e.encode)
      · rw [run_iter_stop_flag e h1 (by simpa using h2)]
        exact Or.inl rfl
    · rw [run_iter_not_capturing e h1]
      exact Or.inl rfl

/-- Number of failed-read capture iterations in a trace. -/
def failed_reads : List Op → Nat
  | [] => 0
  | Op.iter e :: rest =>
    (if e.read = none then 1 else 0) + failed_reads rest
  | _ :: rest => failed_reads rest

/-- The device right after a successful startup: connected and capturing. -/
def dev_started : DeviceState := run_trace init_device [Op.start true]

/-- Claim C4 counterexample: from a connected, healthy device, setting the
stop flag and letting the loop run one more (successful-read!) iteration
flips `connected` to false through the cleanup block, with zero failed reads
in the whole suffix. -/
theorem C4_counterexample :
    dev_started.status.connected = true ∧
    failed_reads [Op.setStop,
      Op.iter { read := some 0, encode := some [1], initOk := false }] = 0 ∧
    (run_trace dev_started [Op.setStop,
      Op.iter { read := some 0, encode := some [1], initOk := false }]
      ).status.connected = false := by
  decide

/-- Claim C4 amended: `connected` flips from true to false only inside a
capture-loop iteration, and only when either the consecutive-error counter
reaches the threshold on a failed read, or the loop exits into cleanup
because the stop flag was cleared. -/
theorem C4_connected_flip (d : DeviceState) (op : Op)
    (h1 : d.status.connected = true)
    (h2 : (step d op).status.connected = false) :
    ∃ e, op = Op.iter e ∧ d.thread.phase = Phase.capturing ∧
      (d.thread.running = false ∨
       (e.read = none ∧
        max_consecutive_errors ≤ d.thread.consecutive_errors + 1)) := by
  cases op with
  | start ok =>
    rw [step_start] at h2
    rcases run_start_connected d ok with h | h <;> rw [h2] at h
    · rw [h1] at h; cases h
    · cases h
  | setStop =>
    rw [step_setStop] at h2
    rw [h1] at h2; cases h2
  | postReconnect ok =>
    rw [step_postReconnect] at h2
    have h2b : (reconnect_camera d ok).1.status.connected = false := h2
    rcases reconnect_camera_connected d ok with h | h
    · rw [h2b, h1] at h
      exact Bool.noConfusion h
    · rw [h2b] at h
      exact Bool.noConfusion h
  | iter e =>
    rw [step_iter] at h2
    by_cases hp : d.thread.phase = Phase.capturing
    · by_cases hrun : d.thread.running = true
      · cases hr : e.read with
        | none =>
          refine ⟨e, rfl, hp, Or.inr ⟨hr, ?_⟩⟩
          by_contra hlt
          rw [run_iter_fail hp hrun hr] at h2
          unfold on_fail_read at h2
          rw [if_neg hlt] at h2
          rw [h1] at h2; cases h2
        | some v =>
          rw [run_iter_good hp hrun hr, on_good_read_connected, h1] at h2
          cases h2
      · exact ⟨e, rfl, hp, Or.inl (by simpa using hrun)⟩
    · rw [run_iter_not_capturing e hp] at h2
      rw [h1] at h2; cases h2

/-- Witness for C4: the stop-flag cleanup flip. -/
theorem C4_connected_flip_witness :
    ∃ e, Op.iter { read := some 0, encode := some [1], initOk := false } =
        Op.iter e ∧
      (run_trace init_device [Op.start true, Op.setStop]).thread.phase =
        Phase.capturing ∧
      ((run_trace init_device [Op.start true, Op.setStop]).thread.running =
        false ∨
       (e.read = none ∧
        max_consecutive_errors ≤
          (run_trace init_device [Op.start true, Op.setStop]
            ).thread.consecutive_errors + 1)) :=
  C4_connected_flip (run_trace init_device [Op.start true, Op.setStop])
    (Op.iter { read := some 0, encode := some [1], initOk := false })
    (by decide) (by decide)

/-- Claim C5 counterexample: the disconnected-placeholder branch of
`generate_frames` is a critical section of the per-device status lock whose
body both emits to the network (the `yield`) and sleeps one second. -/
theorem C5_counterexample :
    cs_stream_status ∈ all_critical_sections ∧
    cs_stream_status.lock = LockKind.statusLock ∧
    cs_stream_status.sleeps = true ∧
    cs_stream_status.emits = true := by
  decide

/-- Claim C5 amended: every lock acquisition in the service except the
disconnected-placeholder branch of `generate_frames` is held only for a
single read or write of the guarded state — never across a capture call, a
network emission, or a sleep; that one branch holds the status lock across
both the placeholder emission and a one-second sleep. -/
theorem C5_lock_sections :
    ∀ cs ∈ all_critical_sections, cs ≠ cs_stream_status →
      cs.sleeps = false ∧ cs.emits = false ∧ cs.captures = false := by
  decide

/-- Witness for C5: the frame-slot write of the capture loop. -/
theorem C5_lock_sections_witness :
    cs_run_frame_write.sleeps = false ∧ cs_run_frame_write.emits = false ∧
      cs_run_frame_write.captures = false :=
  C5_lock_sections cs_run_frame_write (by decide) (by decide)

/-- Claim C6 counterexample: with both workers present, the shutdown handler
performs exactly the two stop-flag writes and no join/wait of any kind. -/
theorem C6_counterexample :
    shutdown_actions [some init_device.thread, some init_device.thread] =
      [ShutdownAction.setStopFlag 0, ShutdownAction.setStopFlag 1] ∧
    ShutdownAction.isJoin (ShutdownAction.setStopFlag 0) = false ∧
    ShutdownAction.isJoin (ShutdownAction.setStopFlag 1) = false := by
  decide

/-- Claim C6 amended: on shutdown the stop flag of every existing worker is
set, but the handler never waits (joins) on any worker — bounded or
otherwise; it returns immediately after clearing the flags. -/
theorem C6_shutdown_no_join (threads : List (Option CameraThreadState)) :
    (∀ a ∈ shutdown_actions threads, a.isJoin = false) ∧
    (∀ i t, threads[i]? = some (some t) →
        ShutdownAction.setStopFlag i ∈ shutdown_actions threads) ∧
    (∀ w ∈ shutdown_state threads, ∀ t, w = some t → t.running = false) := by
  refine ⟨?_, ?_, ?_⟩
  · intro a ha
    rcases List.mem_filterMap.mp ha with ⟨p, _, hp⟩
    rcases p with ⟨i, _ | t⟩
    · cases hp
    · cases hp; rfl
  · intro i t hget
    refine List.mem_filterMap.mpr ⟨(i, some t), ?_, rfl⟩
    rw [List.mem_enum_iff_getElem?]
    exact hget
  · intro w hw t hwt
    rcases List.mem_map.mp hw with ⟨o, _, ho⟩
    rcases o with _ | u
    · rw [← ho] at hwt; cases hwt
    · rw [← ho] at hwt
      cases hwt
      rfl

/-- Witness for C6: a two-worker `camera_threads` list. -/
theorem C6_shutdown_no_join_witness :
    ShutdownAction.setStopFlag 1 ∈
      shutdown_actions [some init_device.thread, some init_device.thread] :=
  (C6_shutdown_no_join [some init_device.thread, some init_device.thread]).2.1
    1 init_device.thread rfl

/-- Claim C7: for a connected device, a stream iteration emits the frame and
records the emission time whenever the slot is non-empty; it terminates the
sequence exactly when the slot is empty and more than 5 seconds have elapsed
since the last recorded emission; and over a whole run it never terminates
while every observation still finds a frame in the slot. -/
theorem C7_stream_connected :
    (∀ (cid fps : Nat) (slot : Option (List Nat)) (now last : ℚ)
        (b : List Nat), slot = some b →
      stream_tick cid fps true slot now last =
        (StreamOut.frame b, now, 1 / (fps : ℚ))) ∧
    (∀ (cid fps : Nat) (slot : Option (List Nat)) (now last : ℚ),
      (stream_tick cid fps true slot now last).1 = StreamOut.terminated ↔
        slot = none ∧ now - last > 5) ∧
    (∀ (cid fps : Nat) (last0 : ℚ) (evs : List StreamEvent),
      (∀ ev ∈ evs, ev.connected = true ∧ ev.slot ≠ none) →
      StreamOut.terminated ∉ stream_run cid fps last0 evs) := by
  refine ⟨?_, ?_, ?_⟩
  · intro cid fps slot now last b hb
    rw [hb]
    rfl
  · intro cid fps slot now last
    unfold stream_tick
    cases slot with
    | some b => simp
    | none =>
      by_cases h : now - last > 5
      · simp [h]
      · simp [h]
  · intro cid fps last0 evs
    induction evs generalizing last0 with
    | nil => intro _ h; cases h
    | cons ev rest ih =>
      intro hall
      obtain ⟨hc, hs⟩ := hall ev (List.mem_cons_self ev rest)
      rcases hslot : ev.slot with _ | b
      · exact absurd hslot hs
      · unfold stream_run
        rw [hc, hslot]
        show StreamOut.terminated ∉
          StreamOut.frame b :: stream_run cid fps ev.now rest
        intro hmem
        rcases List.mem_cons.mp hmem with h | h
        · cases h
        · exact ih ev.now (fun x hx => hall x (List.mem_cons_of_mem ev hx)) h

/-- Witness for C7: a concrete connected tick with a frame in the slot, and
a concrete two-observation run that keeps streaming. -/
theorem C7_stream_connected_witness :
    stream_tick 0 30 true (some [7]) 10 8 =
      (StreamOut.frame [7], 10, 1 / (30 : ℚ)) ∧
    StreamOut.terminated ∉ stream_run 0 30 0
      [ { connected := true, slot := some [7], now := 6 },
        { connected := true, slot := some [8], now := 20 } ] :=
  ⟨C7_stream_connected.1 0 30 (some [7]) 10 8 [7] rfl,
   C7_stream_connected.2.2 0 30 0 _ (by decide)⟩

/-- Claim C8: for a disconnected device, a stream iteration emits the
placeholder image naming the device as disconnected, sleeps a full second
regardless of the configured fps, and never terminates the sequence on this
branch. -/
theorem C8_stream_disconnected :
    (∀ (cid fps : Nat) (slot : Option (List Nat)) (now last : ℚ),
      stream_tick cid fps false slot now last =
        (StreamOut.placeholder (generate_placeholder_image cid), last, 1)) ∧
    (∀ cid : Nat,
      (generate_placeholder_image cid).text =
        "Camera " ++ toString cid ++ " - Disconnected" ∧
      (generate_placeholder_image cid).width = 1280 ∧
      (generate_placeholder_image cid).height = 720) ∧
    (∀ (cid fps : Nat) (last0 now : ℚ) (slot : Option (List Nat))
        (rest : List StreamEvent),
      stream_run cid fps last0
          ({ connected := false, slot := slot, now := now } :: rest) =
        StreamOut.placeholder (generate_placeholder_image cid) ::
          stream_run cid fps last0 rest) := by
  refine ⟨?_, ?_, ?_⟩
  · intro cid fps slot now last
    rfl
  · intro cid
    exact ⟨rfl, rfl, rfl⟩
  · intro cid fps last0 now slot rest
    rfl

end CameraV1

